import Mathlib

/-!
Verification of the voxel toolkit: integer 3D geometry (`Point`, `Box`),
the dense paletted voxel image (`Paletted`), the region-copy engine
(`Blit`), and the chunk-based `.vox` stream decoder (`Decode`).

The Go source is embedded shallowly:
* Go `int` becomes `Int` (the operations modelled here perform only
  comparisons and small arithmetic, so 64-bit overflow is not reachable
  in any claim below); Go `uint32` counters become `Nat` reduced
  modulo `2^32` at every operation that the source performs on `uint32`.
* The byte stream is a `List Nat`; `binary.Read` (which uses
  `io.ReadFull` semantics) is modelled by `readN`, and the raw
  `reader.Read` call in the unknown-chunk branch is modelled with
  `bytes.Reader` semantics (EOF error only when the stream is already
  exhausted, otherwise a possibly-short read with no error).
* The decoder's callbacks into its sink (`SetBounds` / `SetPalette` /
  `Set`) are recorded as a list of `SinkEvent`s in call order; replaying
  the events against a `Paletted` value (`applyEvents`) models the
  interface dispatch of the source.
* Go slice indexing is modelled with `List.getD` / `List.set`; every
  access performed by the claims below is in range, matching the
  panic-free executions of the source.
-/

namespace Voxel

/-- `Point` from geom.go: a 3-tuple of signed integers. -/
structure Point where
  X : Int
  Y : Int
  Z : Int
deriving DecidableEq

/-- `Point.Add` from geom.go. -/
def Point.Add (p q : Point) : Point :=
  ⟨p.X + q.X, p.Y + q.Y, p.Z + q.Z⟩

/-- `Point.Sub` from geom.go. -/
def Point.Sub (p q : Point) : Point :=
  ⟨p.X - q.X, p.Y - q.Y, p.Z - q.Z⟩

/-- `ZP` from geom.go: the zero point. -/
def ZP : Point := ⟨0, 0, 0⟩

/-- `Pt` from geom.go. -/
def Pt (X Y Z : Int) : Point := ⟨X, Y, Z⟩

/-- `Box` from geom.go: a half-open box `[Min, Max)` on each axis. -/
structure Box where
  Min : Point
  Max : Point
deriving DecidableEq

/-- `ZB` from geom.go: the zero box. -/
def ZB : Box := ⟨ZP, ZP⟩

/-- `Box.Dx` from geom.go. -/
def Box.Dx (b : Box) : Int := b.Max.X - b.Min.X

/-- `Box.Dy` from geom.go. -/
def Box.Dy (b : Box) : Int := b.Max.Y - b.Min.Y

/-- `Box.Dz` from geom.go. -/
def Box.Dz (b : Box) : Int := b.Max.Z - b.Min.Z

/-- `Box.Size` from geom.go. -/
def Box.Size (b : Box) : Point :=
  ⟨b.Max.X - b.Min.X, b.Max.Y - b.Min.Y, b.Max.Z - b.Min.Z⟩

/-- `Box.Empty` from geom.go. -/
def Box.Empty (b : Box) : Bool :=
  b.Min.X ≥ b.Max.X || b.Min.Y ≥ b.Max.Y || b.Min.Z ≥ b.Max.Z

/-- `Box.Intersect` from geom.go: clamp both boxes per axis and return
`ZB` if any axis inverted.  The sequential field mutations of the source
are expressed as one clamped candidate box. -/
def Box.Intersect (b s : Box) : Box :=
  let minX := if b.Min.X < s.Min.X then s.Min.X else b.Min.X
  let minY := if b.Min.Y < s.Min.Y then s.Min.Y else b.Min.Y
  let minZ := if b.Min.Z < s.Min.Z then s.Min.Z else b.Min.Z
  let maxX := if b.Max.X > s.Max.X then s.Max.X else b.Max.X
  let maxY := if b.Max.Y > s.Max.Y then s.Max.Y else b.Max.Y
  let maxZ := if b.Max.Z > s.Max.Z then s.Max.Z else b.Max.Z
  if minX > maxX || minY > maxY || minZ > maxZ then ZB
  else ⟨⟨minX, minY, minZ⟩, ⟨maxX, maxY, maxZ⟩⟩

/-- `Box.In` from geom.go: an empty box is in every box. -/
def Box.In (b s : Box) : Bool :=
  if b.Empty then true
  else
    s.Min.X ≤ b.Min.X && b.Max.X ≤ s.Max.X &&
    s.Min.Y ≤ b.Min.Y && b.Max.Y ≤ s.Max.Y &&
    s.Min.Z ≤ b.Min.Z && b.Max.Z ≤ s.Max.Z

/-- `Bx` from geom.go: box constructor that swaps each coordinate pair
into ascending order. -/
def Bx (x0 y0 z0 x1 y1 z1 : Int) : Box :=
  let px := if x0 > x1 then (x1, x0) else (x0, x1)
  let py := if y0 > y1 then (y1, y0) else (y0, y1)
  let pz := if z0 > z1 then (z1, z0) else (z0, z1)
  ⟨⟨px.1, py.1, pz.1⟩, ⟨px.2, py.2, pz.2⟩⟩

/-- An RGBA color entry (`color.RGBA` in the source). -/
structure RGBA where
  R : Nat
  G : Nat
  B : Nat
  A : Nat
deriving DecidableEq

/-- `Paletted` from the image file: flat storage of palette indices over
a bounds box, plus a coordinate-transform hook. -/
structure Paletted where
  bounds : Box
  Transformer : Int → Int → Int → Int × Int × Int
  Palette : List RGBA
  Data : List Nat

/-- `noTransform` from the image file: the identity transform. -/
def noTransform (x y z : Int) : Int × Int × Int := (x, y, z)

/-- `Paletted.Bounds` from the image file. -/
def Paletted.Bounds (p : Paletted) : Box := p.bounds

/-- `Paletted.Offset` from the image file:
`z*Max.X*Max.Y + y*Max.X + x` over the stored bounds. -/
def Paletted.Offset (p : Paletted) (x y z : Int) : Int :=
  z * p.bounds.Max.X * p.bounds.Max.Y + y * p.bounds.Max.X + x

/-- `Paletted.SetBounds` from the image file: the transform is applied
to `b.Max` to produce the stored bounds, while the buffer is sized from
the untransformed `b.Max`. -/
def Paletted.SetBounds (p : Paletted) (b : Box) : Paletted :=
  let t := p.Transformer b.Max.X b.Max.Y b.Max.Z
  let sz := b.Max.X * b.Max.Y * b.Max.Z
  { p with bounds := ⟨ZP, ⟨t.1, t.2.1, t.2.2⟩⟩, Data := List.replicate sz.toNat 0 }

/-- `Paletted.SetPalette` from the image file. -/
def Paletted.SetPalette (p : Paletted) (pal : List RGBA) : Paletted :=
  { p with Palette := pal }

/-- `Paletted.Set` from the image file: the transform is applied to the
coordinates before they become a flat offset. -/
def Paletted.Set (p : Paletted) (x y z : Int) (index : Nat) : Paletted :=
  let t := p.Transformer x y z
  { p with Data := p.Data.set (p.Offset t.1 t.2.1 t.2.2).toNat index }

/-- `Paletted.Get` from the image file: the source reads
`p.Data[p.Offset(x, y, z)]` directly, without applying the transform. -/
def Paletted.Get (p : Paletted) (x y z : Int) : Nat :=
  p.Data.getD (p.Offset x y z).toNat 0

/-- `NewPaletted` from the image file: a zero-valued `Paletted` with the
given palette and the identity transform, then `SetBounds`. -/
def NewPaletted (pal : List RGBA) (b : Box) : Paletted :=
  Paletted.SetBounds ⟨ZB, noTransform, pal, []⟩ b

/-! ## Blit

`Blit` clips, then walks the destination box in ascending Z, then Y,
then X order with a lockstep source cursor.  `blitLoopX` / `blitLoopY` /
`blitLoopZ` transcribe the three nested `for` loops of the source; they
record, in order, the `(destination, source)` coordinate pairs at which
the loop body executes `dst.Set(x, y, z, src.Get(sx, sy, sz))`.  `Blit`
replays `dst.Set` over exactly that sequence. -/

/-- The inner `for x, sx := b.Min.X, sr.Min.X; x < b.Max.X; x++ … sx++`
loop of `Blit`. -/
def blitLoopX (b : Box) (y z sy sz : Int) (x sx : Int) : List (Point × Point) :=
  if x < b.Max.X then (⟨x, y, z⟩, ⟨sx, sy, sz⟩) :: blitLoopX b y z sy sz (x + 1) (sx + 1)
  else []
termination_by (b.Max.X - x).toNat
decreasing_by simp_wf; omega

/-- The middle `for y, sy := b.Min.Y, sr.Min.Y; y < b.Max.Y; …` loop of
`Blit`; `mx` is `sr.Min.X`. -/
def blitLoopY (b : Box) (mx : Int) (z sz : Int) (y sy : Int) : List (Point × Point) :=
  if y < b.Max.Y then
    blitLoopX b y z sy sz b.Min.X mx ++ blitLoopY b mx z sz (y + 1) (sy + 1)
  else []
termination_by (b.Max.Y - y).toNat
decreasing_by simp_wf; omega

/-- The outer `for z, sz := b.Min.Z, sr.Min.Z; z < b.Max.Z; …` loop of
`Blit`; `m` is `sr.Min`. -/
def blitLoopZ (b : Box) (m : Point) (z sz : Int) : List (Point × Point) :=
  if z < b.Max.Z then
    blitLoopY b m.X z sz b.Min.Y m.Y ++ blitLoopZ b m (z + 1) (sz + 1)
  else []
termination_by (b.Max.Z - z).toNat
decreasing_by simp_wf; omega

/-- The full visitation sequence of `Blit`'s loop nest over the clipped
box `b` with source cursor starting at `m`. -/
def blitTrace (b : Box) (m : Point) : List (Point × Point) :=
  blitLoopZ b m b.Min.Z m.Z

/-- `Blit` from the image file, polymorphic over the `Image` interface:
the destination is any state `δ` with a `Set` operation and the source
any state `σ` with a `Get` operation.  After clipping `sr` to the source
bounds and the destination footprint `dr = Box{dp, dp + size(sr)}` to
the destination bounds, `dst.Set` is applied at every coordinate pair of
the loop nest, in loop order. -/
def Blit {δ σ : Type} (dstBounds srcBounds : Box)
    (dstSet : δ → Int → Int → Int → Nat → δ) (srcGet : σ → Int → Int → Int → Nat)
    (dst : δ) (src : σ) (dp : Point) (sr : Box) : δ :=
  let sr2 := sr.Intersect srcBounds
  let dr : Box := ⟨dp, sr2.Size.Add dp⟩
  let b := dstBounds.Intersect dr
  (blitTrace b sr2.Min).foldl
    (fun d pc => dstSet d pc.1.X pc.1.Y pc.1.Z (srcGet src pc.2.X pc.2.Y pc.2.Z)) dst

/-- The specification-side enumeration of C4: destination cells of `b`
in ascending Z-major, then Y, then X order, paired with the lockstep
source cursor that starts at `m`. -/
def blitSpecTrace (b : Box) (m : Point) : List (Point × Point) :=
  (List.range b.Dz.toNat).flatMap fun (k : Nat) =>
    (List.range b.Dy.toNat).flatMap fun (j : Nat) =>
      (List.range b.Dx.toNat).map fun (i : Nat) =>
        ((⟨b.Min.X + (i : Int), b.Min.Y + (j : Int), b.Min.Z + (k : Int)⟩ : Point),
         (⟨m.X + (i : Int), m.Y + (j : Int), m.Z + (k : Int)⟩ : Point))

/-! ## The `.vox` chunk decoder (vox.go)

The input stream is a `List Nat` of bytes.  `readN` models `binary.Read`
(`io.ReadFull` semantics: all-or-nothing).  The sink calls are recorded
as `SinkEvent`s in call order; the decoder's `uint32` byte counter and
`hasPalette` flag are exposed in the result so that the spec's
bookkeeping claims can be stated. -/

/-- The four error kinds of vox.go (`ErrInvalidFile`,
`ErrInvalidVersion`, `ErrInvalidChunk`, `ErrInvalidMainChunk`); wrapped
inner I/O errors carry no information in this model. -/
inductive VoxError where
  | invalidFile : VoxError
  | invalidVersion : VoxError
  | invalidChunk : VoxError
  | invalidMainChunk : VoxError
deriving DecidableEq

/-- A call made by `Decode` on its sink (`vox.Image` interface). -/
inductive SinkEvent where
  | setBounds : Box → SinkEvent
  | setPalette : List RGBA → SinkEvent
  | set : Int → Int → Int → Nat → SinkEvent
deriving DecidableEq

/-- `true` exactly on `SinkEvent.setPalette` events. -/
def SinkEvent.isSetPalette : SinkEvent → Bool
  | .setPalette _ => true
  | _ => false

/-- Replay one sink event against a `Paletted` image, as Go's interface
dispatch does. -/
def applyEvent (p : Paletted) : SinkEvent → Paletted
  | .setBounds b => p.SetBounds b
  | .setPalette pal => p.SetPalette pal
  | .set x y z i => p.Set x y z i

/-- Replay a list of sink events in order against a `Paletted` image. -/
def applyEvents (p : Paletted) (es : List SinkEvent) : Paletted :=
  es.foldl applyEvent p

/-- `2 ^ 32`, the modulus of the decoder's `uint32` arithmetic. -/
def u32Mod : Nat := 4294967296

/-- Read `n` bytes from the stream with `io.ReadFull` semantics: the
taken prefix and the rest, or `none` on a short stream. -/
def readN (n : Nat) (rem : List Nat) : Option (List Nat × List Nat) :=
  if n ≤ rem.length then some (rem.take n, rem.drop n) else none

/-- Little-endian 32-bit value from the first four bytes of a list. -/
def le32 (b : List Nat) : Nat :=
  b.getD 0 0 + 256 * b.getD 1 0 + 65536 * b.getD 2 0 + 16777216 * b.getD 3 0

/-- The bytes of the magic tag `"VOX "`. -/
def voxMagic : List Nat := [86, 79, 88, 32]

/-- `voxVersion = 150`. -/
def voxVersion : Nat := 150

/-- The bytes of `mainChunkID = "MAIN"`. -/
def mainChunkID : List Nat := [77, 65, 73, 78]

/-- The bytes of `sizeShunkID = "SIZE"`. -/
def sizeShunkID : List Nat := [83, 73, 90, 69]

/-- The bytes of `voxelChunkID = "XYZI"`. -/
def voxelChunkID : List Nat := [88, 89, 90, 73]

/-- The bytes of `paletteChunkID = "RGBA"`. -/
def paletteChunkID : List Nat := [82, 71, 66, 65]

/-- Parse `n` consecutive 4-byte `color.RGBA` entries from a byte list
(the `RGBA` branch reads 256 of them). -/
def parseRGBAList : Nat → List Nat → List RGBA
  | 0, _ => []
  | n + 1, b => ⟨b.getD 0 0, b.getD 1 0, b.getD 2 0, b.getD 3 0⟩ :: parseRGBAList n (b.drop 4)

/-- The per-voxel read loop of the `XYZI` branch: read up to `n`
four-byte voxel records, emitting a `Set` event after each successful
read.  Returns the events, the remaining stream, and whether all `n`
records were read (a short read mid-loop aborts with the events emitted
so far, as in the source). -/
def readVoxels : Nat → List Nat → List SinkEvent × List Nat × Bool
  | 0, rem => ([], rem, true)
  | n + 1, rem =>
    match readN 4 rem with
    | none => ([], rem, false)
    | some (v, rem1) =>
      let r := readVoxels n rem1
      (SinkEvent.set (v.getD 0 0) (v.getD 1 0) (v.getD 2 0) (v.getD 3 0) :: r.1, r.2.1, r.2.2)

/-- The state of the child-chunk loop when it stops: the sink events
emitted (in order), the `hasPalette` flag, the `uint32` byte counter
`numBytes`, the unread rest of the stream, and the error if any. -/
structure LoopOut where
  events : List SinkEvent
  hasPalette : Bool
  numBytes : Nat
  rem : List Nat
  err : Option VoxError
deriving DecidableEq

/-- The `for numBytes < childrenSize` child-chunk loop of `Decode`,
with an explicit fuel bound on the number of iterations (`none` means
the fuel ran out; `decodeChunksF_isSome` below shows fuel
`rem.length + 1` always suffices, since every iteration consumes at
least the 12 header bytes).  Each branch transcribes the corresponding
`switch` case of the source, including the `uint32` wraparound of the
counter updates and the `16 * 256` added by the `RGBA` case.  The
unknown-chunk branch models `reader.Read` on an in-memory stream: error
exactly when the stream is already empty, otherwise a possibly-short
read of `dataSize + childrenSize` bytes. -/
def decodeChunksF (fuel : Nat) (childrenSize numBytes : Nat) (hasPalette : Bool)
    (rem : List Nat) : Option LoopOut :=
  match fuel with
  | 0 => none
  | fuel + 1 =>
    if numBytes < childrenSize then
      match readN 12 rem with
      | none => some ⟨[], hasPalette, numBytes, rem, some .invalidFile⟩
      | some (hdr, rem1) =>
        let cid := hdr.take 4
        let dataSize := le32 (hdr.drop 4)
        let childSz := le32 (hdr.drop 8)
        let nb := (numBytes + 12) % u32Mod
        if cid = sizeShunkID then
          match readN 12 rem1 with
          | none => some ⟨[], hasPalette, nb, rem1, some .invalidChunk⟩
          | some (szb, rem2) =>
            let nb2 := (nb + 12) % u32Mod
            let ev := SinkEvent.setBounds
              (Bx 0 0 0 (le32 szb) (le32 (szb.drop 4)) (le32 (szb.drop 8)))
            (decodeChunksF fuel childrenSize nb2 hasPalette rem2).map
              fun r => { r with events := ev :: r.events }
        else if cid = paletteChunkID then
          match readN 1024 rem1 with
          | none => some ⟨[], hasPalette, nb, rem1, some .invalidChunk⟩
          | some (pb, rem2) =>
            let ev := SinkEvent.setPalette (parseRGBAList 256 pb)
            let nb2 := (nb + 16 * 256) % u32Mod
            (decodeChunksF fuel childrenSize nb2 true rem2).map
              fun r => { r with events := ev :: r.events }
        else if cid = voxelChunkID then
          match readN 4 rem1 with
          | none => some ⟨[], hasPalette, nb, rem1, some .invalidChunk⟩
          | some (nvb, rem2) =>
            let numVoxels := le32 nvb
            let nb2 := (nb + 4) % u32Mod
            let rv := readVoxels numVoxels rem2
            if rv.2.2 then
              let nb3 := (nb2 + 4 * numVoxels % u32Mod) % u32Mod
              (decodeChunksF fuel childrenSize nb3 hasPalette rv.2.1).map
                fun r => { r with events := rv.1 ++ r.events }
            else
              some ⟨rv.1, hasPalette, nb2, rv.2.1, some .invalidChunk⟩
        else
          let sz := (dataSize + childSz) % u32Mod
          if rem1.isEmpty then
            some ⟨[], hasPalette, nb, rem1, some .invalidFile⟩
          else
            let nb2 := (nb + sz) % u32Mod
            decodeChunksF fuel childrenSize nb2 hasPalette (rem1.drop (min sz rem1.length))
    else
      some ⟨[], hasPalette, numBytes, rem, none⟩

/-- Entries 0 to 31 of `defaultPalette` from vox.go. -/
def defaultPalettePart0 : List RGBA := [
  ⟨255, 255, 255, 255⟩, ⟨255, 255, 204, 255⟩, ⟨255, 255, 153, 255⟩, ⟨255, 255, 102, 255⟩,
  ⟨255, 255, 51, 255⟩, ⟨255, 255, 0, 255⟩, ⟨255, 204, 255, 255⟩, ⟨255, 204, 204, 255⟩,
  ⟨255, 204, 153, 255⟩, ⟨255, 204, 102, 255⟩, ⟨255, 204, 51, 255⟩, ⟨255, 204, 0, 255⟩,
  ⟨255, 153, 255, 255⟩, ⟨255, 153, 204, 255⟩, ⟨255, 153, 153, 255⟩, ⟨255, 153, 102, 255⟩,
  ⟨255, 153, 51, 255⟩, ⟨255, 153, 0, 255⟩, ⟨255, 102, 255, 255⟩, ⟨255, 102, 204, 255⟩,
  ⟨255, 102, 153, 255⟩, ⟨255, 102, 102, 255⟩, ⟨255, 102, 51, 255⟩, ⟨255, 102, 0, 255⟩,
  ⟨255, 51, 255, 255⟩, ⟨255, 51, 204, 255⟩, ⟨255, 51, 153, 255⟩, ⟨255, 51, 102, 255⟩,
  ⟨255, 51, 51, 255⟩, ⟨255, 51, 0, 255⟩, ⟨255, 0, 255, 255⟩, ⟨255, 0, 204, 255⟩]

/-- Entries 32 to 63 of `defaultPalette` from vox.go. -/
def defaultPalettePart1 : List RGBA := [
  ⟨255, 0, 153, 255⟩, ⟨255, 0, 102, 255⟩, ⟨255, 0, 51, 255⟩, ⟨255, 0, 0, 255⟩,
  ⟨204, 255, 255, 255⟩, ⟨204, 255, 204, 255⟩, ⟨204, 255, 153, 255⟩, ⟨204, 255, 102, 255⟩,
  ⟨204, 255, 51, 255⟩, ⟨204, 255, 0, 255⟩, ⟨204, 204, 255, 255⟩, ⟨204, 204, 204, 255⟩,
  ⟨204, 204, 153, 255⟩, ⟨204, 204, 102, 255⟩, ⟨204, 204, 51, 255⟩, ⟨204, 204, 0, 255⟩,
  ⟨204, 153, 255, 255⟩, ⟨204, 153, 204, 255⟩, ⟨204, 153, 153, 255⟩, ⟨204, 153, 102, 255⟩,
  ⟨204, 153, 51, 255⟩, ⟨204, 153, 0, 255⟩, ⟨204, 102, 255, 255⟩, ⟨204, 102, 204, 255⟩,
  ⟨204, 102, 153, 255⟩, ⟨204, 102, 102, 255⟩, ⟨204, 102, 51, 255⟩, ⟨204, 102, 0, 255⟩,
  ⟨204, 51, 255, 255⟩, ⟨204, 51, 204, 255⟩, ⟨204, 51, 153, 255⟩, ⟨204, 51, 102, 255⟩]

/-- Entries 64 to 95 of `defaultPalette` from vox.go. -/
def defaultPalettePart2 : List RGBA := [
  ⟨204, 51, 51, 255⟩, ⟨204, 51, 0, 255⟩, ⟨204, 0, 255, 255⟩, ⟨204, 0, 204, 255⟩,
  ⟨204, 0, 153, 255⟩, ⟨204, 0, 102, 255⟩, ⟨204, 0, 51, 255⟩, ⟨204, 0, 0, 255⟩,
  ⟨153, 255, 255, 255⟩, ⟨153, 255, 204, 255⟩, ⟨153, 255, 153, 255⟩, ⟨153, 255, 102, 255⟩,
  ⟨153, 255, 51, 255⟩, ⟨153, 255, 0, 255⟩, ⟨153, 204, 255, 255⟩, ⟨153, 204, 204, 255⟩,
  ⟨153, 204, 153, 255⟩, ⟨153, 204, 102, 255⟩, ⟨153, 204, 51, 255⟩, ⟨153, 204, 0, 255⟩,
  ⟨153, 153, 255, 255⟩, ⟨153, 153, 204, 255⟩, ⟨153, 153, 153, 255⟩, ⟨153, 153, 102, 255⟩,
  ⟨153, 153, 51, 255⟩, ⟨153, 153, 0, 255⟩, ⟨153, 102, 255, 255⟩, ⟨153, 102, 204, 255⟩,
  ⟨153, 102, 153, 255⟩, ⟨153, 102, 102, 255⟩, ⟨153, 102, 51, 255⟩, ⟨153, 102, 0, 255⟩]

/-- Entries 96 to 127 of `defaultPalette` from vox.go. -/
def defaultPalettePart3 : List RGBA := [
  ⟨153, 51, 255, 255⟩, ⟨153, 51, 204, 255⟩, ⟨153, 51, 153, 255⟩, ⟨153, 51, 102, 255⟩,
  ⟨153, 51, 51, 255⟩, ⟨153, 51, 0, 255⟩, ⟨153, 0, 255, 255⟩, ⟨153, 0, 204, 255⟩,
  ⟨153, 0, 153, 255⟩, ⟨153, 0, 102, 255⟩, ⟨153, 0, 51, 255⟩, ⟨153, 0, 0, 255⟩,
  ⟨102, 255, 255, 255⟩, ⟨102, 255, 204, 255⟩, ⟨102, 255, 153, 255⟩, ⟨102, 255, 102, 255⟩,
  ⟨102, 255, 51, 255⟩, ⟨102, 255, 0, 255⟩, ⟨102, 204, 255, 255⟩, ⟨102, 204, 204, 255⟩,
  ⟨102, 204, 153, 255⟩, ⟨102, 204, 102, 255⟩, ⟨102, 204, 51, 255⟩, ⟨102, 204, 0, 255⟩,
  ⟨102, 153, 255, 255⟩, ⟨102, 153, 204, 255⟩, ⟨102, 153, 153, 255⟩, ⟨102, 153, 102, 255⟩,
  ⟨102, 153, 51, 255⟩, ⟨102, 153, 0, 255⟩, ⟨102, 102, 255, 255⟩, ⟨102, 102, 204, 255⟩]

/-- Entries 128 to 159 of `defaultPalette` from vox.go. -/
def defaultPalettePart4 : List RGBA := [
  ⟨102, 102, 153, 255⟩, ⟨102, 102, 102, 255⟩, ⟨102, 102, 51, 255⟩, ⟨102, 102, 0, 255⟩,
  ⟨102, 51, 255, 255⟩, ⟨102, 51, 204, 255⟩, ⟨102, 51, 153, 255⟩, ⟨102, 51, 102, 255⟩,
  ⟨102, 51, 51, 255⟩, ⟨102, 51, 0, 255⟩, ⟨102, 0, 255, 255⟩, ⟨102, 0, 204, 255⟩,
  ⟨102, 0, 153, 255⟩, ⟨102, 0, 102, 255⟩, ⟨102, 0, 51, 255⟩, ⟨102, 0, 0, 255⟩,
  ⟨51, 255, 255, 255⟩, ⟨51, 255, 204, 255⟩, ⟨51, 255, 153, 255⟩, ⟨51, 255, 102, 255⟩,
  ⟨51, 255, 51, 255⟩, ⟨51, 255, 0, 255⟩, ⟨51, 204, 255, 255⟩, ⟨51, 204, 204, 255⟩,
  ⟨51, 204, 153, 255⟩, ⟨51, 204, 102, 255⟩, ⟨51, 204, 51, 255⟩, ⟨51, 204, 0, 255⟩,
  ⟨51, 153, 255, 255⟩, ⟨51, 153, 204, 255⟩, ⟨51, 153, 153, 255⟩, ⟨51, 153, 102, 255⟩]

/-- Entries 160 to 191 of `defaultPalette` from vox.go. -/
def defaultPalettePart5 : List RGBA := [
  ⟨51, 153, 51, 255⟩, ⟨51, 153, 0, 255⟩, ⟨51, 102, 255, 255⟩, ⟨51, 102, 204, 255⟩,
  ⟨51, 102, 153, 255⟩, ⟨51, 102, 102, 255⟩, ⟨51, 102, 51, 255⟩, ⟨51, 102, 0, 255⟩,
  ⟨51, 51, 255, 255⟩, ⟨51, 51, 204, 255⟩, ⟨51, 51, 153, 255⟩, ⟨51, 51, 102, 255⟩,
  ⟨51, 51, 51, 255⟩, ⟨51, 51, 0, 255⟩, ⟨51, 0, 255, 255⟩, ⟨51, 0, 204, 255⟩,
  ⟨51, 0, 153, 255⟩, ⟨51, 0, 102, 255⟩, ⟨51, 0, 51, 255⟩, ⟨51, 0, 0, 255⟩,
  ⟨0, 255, 255, 255⟩, ⟨0, 255, 204, 255⟩, ⟨0, 255, 153, 255⟩, ⟨0, 255, 102, 255⟩,
  ⟨0, 255, 51, 255⟩, ⟨0, 255, 0, 255⟩, ⟨0, 204, 255, 255⟩, ⟨0, 204, 204, 255⟩,
  ⟨0, 204, 153, 255⟩, ⟨0, 204, 102, 255⟩, ⟨0, 204, 51, 255⟩, ⟨0, 204, 0, 255⟩]

/-- Entries 192 to 223 of `defaultPalette` from vox.go. -/
def defaultPalettePart6 : List RGBA := [
  ⟨0, 153, 255, 255⟩, ⟨0, 153, 204, 255⟩, ⟨0, 153, 153, 255⟩, ⟨0, 153, 102, 255⟩,
  ⟨0, 153, 51, 255⟩, ⟨0, 153, 0, 255⟩, ⟨0, 102, 255, 255⟩, ⟨0, 102, 204, 255⟩,
  ⟨0, 102, 153, 255⟩, ⟨0, 102, 102, 255⟩, ⟨0, 102, 51, 255⟩, ⟨0, 102, 0, 255⟩,
  ⟨0, 51, 255, 255⟩, ⟨0, 51, 204, 255⟩, ⟨0, 51, 153, 255⟩, ⟨0, 51, 102, 255⟩,
  ⟨0, 51, 51, 255⟩, ⟨0, 51, 0, 255⟩, ⟨0, 0, 255, 255⟩, ⟨0, 0, 204, 255⟩,
  ⟨0, 0, 153, 255⟩, ⟨0, 0, 102, 255⟩, ⟨0, 0, 51, 255⟩, ⟨238, 0, 0, 255⟩,
  ⟨221, 0, 0, 255⟩, ⟨187, 0, 0, 255⟩, ⟨170, 0, 0, 255⟩, ⟨136, 0, 0, 255⟩,
  ⟨119, 0, 0, 255⟩, ⟨85, 0, 0, 255⟩, ⟨68, 0, 0, 255⟩, ⟨34, 0, 0, 255⟩]

/-- Entries 224 to 255 of `defaultPalette` from vox.go. -/
def defaultPalettePart7 : List RGBA := [
  ⟨17, 0, 0, 255⟩, ⟨0, 238, 0, 255⟩, ⟨0, 221, 0, 255⟩, ⟨0, 187, 0, 255⟩,
  ⟨0, 170, 0, 255⟩, ⟨0, 136, 0, 255⟩, ⟨0, 119, 0, 255⟩, ⟨0, 85, 0, 255⟩,
  ⟨0, 68, 0, 255⟩, ⟨0, 34, 0, 255⟩, ⟨0, 17, 0, 255⟩, ⟨0, 0, 238, 255⟩,
  ⟨0, 0, 221, 255⟩, ⟨0, 0, 187, 255⟩, ⟨0, 0, 170, 255⟩, ⟨0, 0, 136, 255⟩,
  ⟨0, 0, 119, 255⟩, ⟨0, 0, 85, 255⟩, ⟨0, 0, 68, 255⟩, ⟨0, 0, 34, 255⟩,
  ⟨0, 0, 17, 255⟩, ⟨238, 238, 238, 255⟩, ⟨221, 221, 221, 255⟩, ⟨187, 187, 187, 255⟩,
  ⟨170, 170, 170, 255⟩, ⟨136, 136, 136, 255⟩, ⟨119, 119, 119, 255⟩, ⟨85, 85, 85, 255⟩,
  ⟨68, 68, 68, 255⟩, ⟨34, 34, 34, 255⟩, ⟨17, 17, 17, 255⟩, ⟨0, 0, 0, 255⟩]

/-- `defaultPalette` from vox.go: the fixed built-in 256-entry palette
used when the stream supplies no `RGBA` chunk. -/
def defaultPalette : List RGBA :=
  defaultPalettePart0 ++ defaultPalettePart1 ++ defaultPalettePart2 ++ defaultPalettePart3 ++
  defaultPalettePart4 ++ defaultPalettePart5 ++ defaultPalettePart6 ++ defaultPalettePart7


/-- The overall result of `Decode`: the sink events in call order, the
error if any, and the decoder's internal `hasPalette` flag, final byte
counter and unread rest of the stream (exposed so the spec's
bookkeeping claims can be stated). -/
structure DecodeOut where
  events : List SinkEvent
  err : Option VoxError
  hasPalette : Bool
  numBytes : Nat
  rem : List Nat
deriving DecidableEq

/-- `Decode` from vox.go over an in-memory byte stream: file header
(magic, version byte), `MAIN` chunk header, then the child-chunk loop;
if no `RGBA` chunk was seen, a final `SetPalette` with the default
palette is appended before success.  `none` would mean the child loop
ran out of fuel; the termination theorem shows this never happens. -/
def Decode (bytes : List Nat) : Option DecodeOut :=
  match readN 8 bytes with
  | none => some ⟨[], some .invalidFile, false, 0, bytes⟩
  | some (fh, rem0) =>
    if fh.take 4 ≠ voxMagic then some ⟨[], some .invalidFile, false, 0, rem0⟩
    else if fh.getD 4 0 ≠ voxVersion then some ⟨[], some .invalidVersion, false, 0, rem0⟩
    else
      match readN 12 rem0 with
      | none => some ⟨[], some .invalidMainChunk, false, 0, rem0⟩
      | some (mh, rem1) =>
        if mh.take 4 ≠ mainChunkID then some ⟨[], some .invalidMainChunk, false, 0, rem1⟩
        else
          let childrenSize := le32 (mh.drop 8)
          match decodeChunksF (rem1.length + 1) childrenSize 0 false rem1 with
          | none => none
          | some r =>
            match r.err with
            | some e => some ⟨r.events, some e, r.hasPalette, r.numBytes, r.rem⟩
            | none =>
              if r.hasPalette then some ⟨r.events, none, true, r.numBytes, r.rem⟩
              else some ⟨r.events ++ [SinkEvent.setPalette defaultPalette], none, false,
                         r.numBytes, r.rem⟩

/-! ## Concrete streams and images used by the claims -/

/-- The four little-endian bytes of a 32-bit value. -/
def le32Bytes (n : Nat) : List Nat :=
  [n % 256, n / 256 % 256, n / 65536 % 256, n / 16777216 % 256]

/-- A well-formed stream whose `MAIN` chunk contains exactly one `RGBA`
chunk: `childrenSize = 12 + 1024 = 1036`, the RGBA payload being 256
four-byte entries (here all zero). -/
def rgbaOnlyStream : List Nat :=
  voxMagic ++ [150, 0, 0, 0] ++ mainChunkID ++ le32Bytes 0 ++ le32Bytes 1036 ++
  paletteChunkID ++ le32Bytes 1024 ++ le32Bytes 0 ++ List.replicate 1024 0

/-- The 1024 payload bytes of a 256-entry palette table whose entries
are all `⟨7, 7, 7, 7⟩`. -/
def sampleTable : List Nat := List.replicate 1024 7

/-- A well-formed stream with `SIZE`(2,2,2), then `RGBA`(`sampleTable`),
then `XYZI` with voxels `(0,0,0,5)` and `(1,1,1,9)`; the `MAIN`
header's `childrenSize` is the total encoded size
`24 + 1036 + 24 = 1084`. -/
def sizeRgbaXyziStream : List Nat :=
  voxMagic ++ [150, 0, 0, 0] ++ mainChunkID ++ le32Bytes 0 ++ le32Bytes 1084 ++
  sizeShunkID ++ le32Bytes 12 ++ le32Bytes 0 ++
  le32Bytes 2 ++ le32Bytes 2 ++ le32Bytes 2 ++
  paletteChunkID ++ le32Bytes 1024 ++ le32Bytes 0 ++ sampleTable ++
  voxelChunkID ++ le32Bytes 12 ++ le32Bytes 0 ++ le32Bytes 2 ++
  [0, 0, 0, 5] ++ [1, 1, 1, 9]

/-- A well-formed stream whose `MAIN` chunk has no children
(`childrenSize = 0`): the child loop exits at once and no `RGBA` chunk
is ever seen. -/
def emptyMainStream : List Nat :=
  voxMagic ++ [150, 0, 0, 0] ++ mainChunkID ++ le32Bytes 0 ++ le32Bytes 0

/-- A `Paletted` image with a non-identity transform (swap the X and Y
axes) over a 2×2×2 bounds, whose buffer holds `7` at flat offset 1 and
`0` elsewhere.  Used to separate `Get` from the transformed read the
spec describes. -/
def swapPaletted : Paletted :=
  { bounds := ⟨ZP, ⟨2, 2, 2⟩⟩
    Transformer := fun x y z => (y, x, z)
    Palette := []
    Data := [0, 7, 0, 0, 0, 0, 0, 0] }

/-! ## Theorems -/

/-- `Box.Empty` as arithmetic. -/
theorem box_empty_iff (b : Box) :
    b.Empty = true ↔ b.Min.X ≥ b.Max.X ∨ b.Min.Y ≥ b.Max.Y ∨ b.Min.Z ≥ b.Max.Z := by
  simp [Box.Empty, or_assoc]

/-- `Box.Empty = false` as arithmetic. -/
theorem box_empty_eq_false_iff (b : Box) :
    b.Empty = false ↔ b.Min.X < b.Max.X ∧ b.Min.Y < b.Max.Y ∧ b.Min.Z < b.Max.Z := by
  rw [← Bool.not_eq_true, box_empty_iff]
  omega

/-- `Box.In` as arithmetic. -/
theorem box_in_iff (b s : Box) :
    b.In s = true ↔ b.Empty = true ∨
      (s.Min.X ≤ b.Min.X ∧ b.Max.X ≤ s.Max.X ∧ s.Min.Y ≤ b.Min.Y ∧ b.Max.Y ≤ s.Max.Y ∧
       s.Min.Z ≤ b.Min.Z ∧ b.Max.Z ≤ s.Max.Z) := by
  simp only [Box.In]
  split_ifs with he <;> simp [he, and_assoc]

/-- The source's clamp `if a < c then c else a` is `max a c`. -/
theorem ite_lt_eq_max (a c : Int) : (if a < c then c else a) = max a c := by
  split_ifs <;> omega

/-- The source's clamp `if a > c then c else a` is `min a c`. -/
theorem ite_gt_eq_min (a c : Int) : (if a > c then c else a) = min a c := by
  split_ifs <;> omega

/-- `Box.Intersect` computes the componentwise max of the mins and min
of the maxes, or `ZB` when some axis inverts. -/
theorem intersect_eq_minmax (b s : Box) :
    b.Intersect s =
      if max b.Min.X s.Min.X > min b.Max.X s.Max.X ∨
         max b.Min.Y s.Min.Y > min b.Max.Y s.Max.Y ∨
         max b.Min.Z s.Min.Z > min b.Max.Z s.Max.Z then ZB
      else ⟨⟨max b.Min.X s.Min.X, max b.Min.Y s.Min.Y, max b.Min.Z s.Min.Z⟩,
            ⟨min b.Max.X s.Max.X, min b.Max.Y s.Max.Y, min b.Max.Z s.Max.Z⟩⟩ := by
  simp only [Box.Intersect, ite_lt_eq_max, ite_gt_eq_min]
  split_ifs with h1 h2 h3 <;> first
    | rfl
    | · simp only [Bool.or_eq_true, decide_eq_true_eq, or_assoc] at h1
        first | exact absurd h1 h2 | exact absurd h3 h1

/-- C8: for all boxes `b` and `s` with a non-empty intersection,
`b.Intersect(s)` is contained in `b` and in `s`. -/
theorem intersect_in_both (b s : Box) (h : (b.Intersect s).Empty = false) :
    (b.Intersect s).In b = true ∧ (b.Intersect s).In s = true := by
  rw [intersect_eq_minmax] at *
  split_ifs at * with h1
  · rw [box_empty_eq_false_iff] at h
    simp only [ZB, ZP] at h
    omega
  · rw [box_empty_eq_false_iff] at h
    rw [box_in_iff, box_in_iff, box_empty_iff]
    simp only at h ⊢
    omega

/-- Witness for C8 at `b = Bx 0 0 0 2 2 2`, `s = Bx 1 1 1 3 3 3`. -/
theorem intersect_in_both_witness :
    ((Bx 0 0 0 2 2 2).Intersect (Bx 1 1 1 3 3 3)).Empty = false ∧
    (((Bx 0 0 0 2 2 2).Intersect (Bx 1 1 1 3 3 3)).In (Bx 0 0 0 2 2 2) = true ∧
     ((Bx 0 0 0 2 2 2).Intersect (Bx 1 1 1 3 3 3)).In (Bx 1 1 1 3 3 3) = true) :=
  ⟨by decide, intersect_in_both (Bx 0 0 0 2 2 2) (Bx 1 1 1 3 3 3) (by decide)⟩

/-- Closed form of `Blit`'s inner X loop: it lists the `(b.Max.X - x)`
consecutive cells from `x`, with the source cursor advancing from `sx`
in lockstep. -/
theorem blitLoopX_eq (b : Box) (y z sy sz : Int) (x sx : Int) :
    blitLoopX b y z sy sz x sx =
      (List.range (b.Max.X - x).toNat).map fun (i : Nat) =>
        ((⟨x + (i : Int), y, z⟩ : Point), (⟨sx + (i : Int), sy, sz⟩ : Point)) := by
  generalize hn : (b.Max.X - x).toNat = n
  induction n generalizing x sx with
  | zero =>
    rw [blitLoopX]
    have hx : ¬ x < b.Max.X := by omega
    simp [hx]
  | succ k ih =>
    rw [blitLoopX]
    have hx : x < b.Max.X := by omega
    rw [if_pos hx, ih (x + 1) (sx + 1) (by omega), List.range_succ_eq_map]
    rw [List.map_cons]
    refine congrArg₂ _ (by simp) ?_
    rw [List.map_map]
    refine List.map_congr_left fun i _ => ?_
    simp only [Function.comp_apply, Prod.mk.injEq, Point.mk.injEq, and_true]
    constructor <;> push_cast <;> ring

/-- Closed form of `Blit`'s middle Y loop in terms of the X loop. -/
theorem blitLoopY_eq (b : Box) (mx z sz : Int) (y sy : Int) :
    blitLoopY b mx z sz y sy =
      (List.range (b.Max.Y - y).toNat).flatMap fun (j : Nat) =>
        blitLoopX b (y + (j : Int)) z (sy + (j : Int)) sz b.Min.X mx := by
  generalize hn : (b.Max.Y - y).toNat = n
  induction n generalizing y sy with
  | zero =>
    rw [blitLoopY]
    have hy : ¬ y < b.Max.Y := by omega
    simp [hy]
  | succ k ih =>
    rw [blitLoopY]
    have hy : y < b.Max.Y := by omega
    rw [if_pos hy, ih (y + 1) (sy + 1) (by omega), List.range_succ_eq_map]
    rw [List.flatMap_cons, List.flatMap_map]
    refine congrArg₂ _ (by simp) ?_
    refine List.flatMap_congr fun j _ => ?_
    have h1 : y + 1 + (j : Int) = y + ((j : Nat) + 1 : Nat) := by push_cast; ring
    have h2 : sy + 1 + (j : Int) = sy + ((j : Nat) + 1 : Nat) := by push_cast; ring
    rw [h1, h2]

/-- Closed form of `Blit`'s outer Z loop in terms of the Y loop. -/
theorem blitLoopZ_eq (b : Box) (m : Point) (z sz : Int) :
    blitLoopZ b m z sz =
      (List.range (b.Max.Z - z).toNat).flatMap fun (k : Nat) =>
        blitLoopY b m.X (z + (k : Int)) (sz + (k : Int)) b.Min.Y m.Y := by
  generalize hn : (b.Max.Z - z).toNat = n
  induction n generalizing z sz with
  | zero =>
    rw [blitLoopZ]
    have hz : ¬ z < b.Max.Z := by omega
    simp [hz]
  | succ k ih =>
    rw [blitLoopZ]
    have hz : z < b.Max.Z := by omega
    rw [if_pos hz, ih (z + 1) (sz + 1) (by omega), List.range_succ_eq_map]
    rw [List.flatMap_cons, List.flatMap_map]
    refine congrArg₂ _ (by simp) ?_
    refine List.flatMap_congr fun j _ => ?_
    have h1 : z + 1 + (j : Int) = z + ((j : Nat) + 1 : Nat) := by push_cast; ring
    have h2 : sz + 1 + (j : Int) = sz + ((j : Nat) + 1 : Nat) := by push_cast; ring
    rw [h1, h2]

/-- The loop nest of `Blit` produces exactly the Z-major, then Y, then
X enumeration with the lockstep source cursor. -/
theorem blitTrace_eq_spec (b : Box) (m : Point) :
    blitTrace b m = blitSpecTrace b m := by
  rw [blitTrace, blitLoopZ_eq, blitSpecTrace]
  refine List.flatMap_congr fun k _ => ?_
  rw [blitLoopY_eq]
  refine List.flatMap_congr fun j _ => ?_
  rw [blitLoopX_eq]
  rfl

/-- Length of a `flatMap` whose pieces all have the same length. -/
theorem length_flatMap_const {α β : Type} (l : List α) (f : α → List β) (c : Nat)
    (h : ∀ a ∈ l, (f a).length = c) : (l.flatMap f).length = l.length * c := by
  induction l with
  | nil => simp
  | cons a l ih =>
    rw [List.flatMap_cons, List.length_append, List.length_cons,
      h a (List.mem_cons_self a l), ih fun a ha => h a (List.mem_cons_of_mem _ ha)]
    ring

/-- The length of the enumeration is the product of the clipped box's
extents. -/
theorem blitSpecTrace_length (b : Box) (m : Point) :
    (blitSpecTrace b m).length = b.Dx.toNat * b.Dy.toNat * b.Dz.toNat := by
  rw [blitSpecTrace]
  rw [length_flatMap_const _ _ (b.Dy.toNat * b.Dx.toNat) ?side1, List.length_range]
  · ring
  case side1 =>
    intro k _
    rw [length_flatMap_const _ _ b.Dx.toNat ?side2, List.length_range]
    case side2 =>
      intro j _
      rw [List.length_map, List.length_range]

/-- The destination coordinates of the enumeration are pairwise
distinct. -/
theorem blitSpecTrace_nodup_fst (b : Box) (m : Point) :
    ((blitSpecTrace b m).map Prod.fst).Nodup := by
  have heq : (blitSpecTrace b m).map Prod.fst =
      (List.range b.Dz.toNat ×ˢ (List.range b.Dy.toNat ×ˢ List.range b.Dx.toNat)).map
        fun (t : Nat × Nat × Nat) =>
          (⟨b.Min.X + (t.2.2 : Int), b.Min.Y + (t.2.1 : Int), b.Min.Z + (t.1 : Int)⟩ : Point) := by
    rw [blitSpecTrace]
    rw [show (List.range b.Dz.toNat ×ˢ (List.range b.Dy.toNat ×ˢ List.range b.Dx.toNat)) =
      (List.range b.Dz.toNat).flatMap fun k =>
        ((List.range b.Dy.toNat).flatMap fun j =>
          (List.range b.Dx.toNat).map fun i => (j, i)).map fun p => (k, p) from rfl]
    rw [List.map_flatMap, List.map_flatMap]
    refine List.flatMap_congr fun k _ => ?_
    rw [List.map_map, List.map_flatMap, List.map_flatMap]
    refine List.flatMap_congr fun j _ => ?_
    simp only [List.map_map]
    rfl
  rw [heq]
  refine List.Nodup.map ?_
    ((List.nodup_range _).product ((List.nodup_range _).product (List.nodup_range _)))
  intro t u h
  simp only [Point.mk.injEq] at h
  obtain ⟨h1, h2, h3⟩ := h
  have e1 : t.2.2 = u.2.2 := by omega
  have e2 : t.2.1 = u.2.1 := by omega
  have e3 : t.1 = u.1 := by omega
  exact Prod.ext e3 (Prod.ext e2 e1)

/-- If the right operand of `Intersect` is empty, so is the result. -/
theorem intersect_empty_of_empty_right (b s : Box) (h : s.Empty = true) :
    (b.Intersect s).Empty = true := by
  rw [intersect_eq_minmax]
  rw [box_empty_iff] at h
  split_ifs with h1
  · rw [box_empty_iff]
    simp [ZB, ZP]
  · rw [box_empty_iff]
    simp only
    omega

/-- C4: for all destination and source bounds, destination point `dp`
and source region `sr` whose clipped iteration box
`b = dst.Bounds() ∩ Box{dp, dp + size(sr ∩ src.Bounds())}` is
non-empty, the loop nest of `Blit` visits exactly `Dx*Dy*Dz`
destination coordinates, each exactly once, in ascending Z-major, then
Y, then X order, with the parallel source cursor starting at the
clipped `sr.Min` and advancing in lockstep (this is the content of
`blitSpecTrace`). -/
theorem blit_visits_cells_in_order (dstB srcB : Box) (dp : Point) (sr : Box)
    (h : (dstB.Intersect ⟨dp, ((sr.Intersect srcB).Size).Add dp⟩).Empty = false) :
    blitTrace (dstB.Intersect ⟨dp, ((sr.Intersect srcB).Size).Add dp⟩)
        (sr.Intersect srcB).Min =
      blitSpecTrace (dstB.Intersect ⟨dp, ((sr.Intersect srcB).Size).Add dp⟩)
        (sr.Intersect srcB).Min ∧
    (blitTrace (dstB.Intersect ⟨dp, ((sr.Intersect srcB).Size).Add dp⟩)
        (sr.Intersect srcB).Min).length =
      (dstB.Intersect ⟨dp, ((sr.Intersect srcB).Size).Add dp⟩).Dx.toNat *
        (dstB.Intersect ⟨dp, ((sr.Intersect srcB).Size).Add dp⟩).Dy.toNat *
        (dstB.Intersect ⟨dp, ((sr.Intersect srcB).Size).Add dp⟩).Dz.toNat ∧
    ((blitTrace (dstB.Intersect ⟨dp, ((sr.Intersect srcB).Size).Add dp⟩)
        (sr.Intersect srcB).Min).map Prod.fst).Nodup := by
  refine ⟨blitTrace_eq_spec _ _, ?_, ?_⟩
  · rw [blitTrace_eq_spec]
    exact blitSpecTrace_length _ _
  · rw [blitTrace_eq_spec]
    exact blitSpecTrace_nodup_fst _ _

/-- Witness for C4 at `dstB = Bx 0 0 0 2 2 2`, `srcB = Bx 0 0 0 3 3 3`,
`dp = Pt 0 0 0`, `sr = Bx 0 0 0 2 1 2`. -/
theorem blit_visits_cells_in_order_witness :
    ((Bx 0 0 0 2 2 2).Intersect
      ⟨Pt 0 0 0, (((Bx 0 0 0 2 1 2).Intersect (Bx 0 0 0 3 3 3)).Size).Add (Pt 0 0 0)⟩).Empty
        = false ∧
    (blitTrace ((Bx 0 0 0 2 2 2).Intersect
        ⟨Pt 0 0 0, (((Bx 0 0 0 2 1 2).Intersect (Bx 0 0 0 3 3 3)).Size).Add (Pt 0 0 0)⟩)
        ((Bx 0 0 0 2 1 2).Intersect (Bx 0 0 0 3 3 3)).Min =
      blitSpecTrace ((Bx 0 0 0 2 2 2).Intersect
        ⟨Pt 0 0 0, (((Bx 0 0 0 2 1 2).Intersect (Bx 0 0 0 3 3 3)).Size).Add (Pt 0 0 0)⟩)
        ((Bx 0 0 0 2 1 2).Intersect (Bx 0 0 0 3 3 3)).Min ∧
    (blitTrace ((Bx 0 0 0 2 2 2).Intersect
        ⟨Pt 0 0 0, (((Bx 0 0 0 2 1 2).Intersect (Bx 0 0 0 3 3 3)).Size).Add (Pt 0 0 0)⟩)
        ((Bx 0 0 0 2 1 2).Intersect (Bx 0 0 0 3 3 3)).Min).length =
      ((Bx 0 0 0 2 2 2).Intersect
        ⟨Pt 0 0 0, (((Bx 0 0 0 2 1 2).Intersect (Bx 0 0 0 3 3 3)).Size).Add (Pt 0 0 0)⟩).Dx.toNat *
        ((Bx 0 0 0 2 2 2).Intersect
          ⟨Pt 0 0 0, (((Bx 0 0 0 2 1 2).Intersect (Bx 0 0 0 3 3 3)).Size).Add (Pt 0 0 0)⟩).Dy.toNat *
        ((Bx 0 0 0 2 2 2).Intersect
          ⟨Pt 0 0 0, (((Bx 0 0 0 2 1 2).Intersect (Bx 0 0 0 3 3 3)).Size).Add (Pt 0 0 0)⟩).Dz.toNat ∧
    ((blitTrace ((Bx 0 0 0 2 2 2).Intersect
        ⟨Pt 0 0 0, (((Bx 0 0 0 2 1 2).Intersect (Bx 0 0 0 3 3 3)).Size).Add (Pt 0 0 0)⟩)
        ((Bx 0 0 0 2 1 2).Intersect (Bx 0 0 0 3 3 3)).Min).map Prod.fst).Nodup) :=
  ⟨by decide, blit_visits_cells_in_order (Bx 0 0 0 2 2 2) (Bx 0 0 0 3 3 3) (Pt 0 0 0)
    (Bx 0 0 0 2 1 2) (by decide)⟩

/-- C5: when the destination footprint `Box{dp, dp + size(sr)}` misses
the destination bounds (or, in general, when either clipped region is
empty), `Blit` makes no `dst.Set` or `src.Get` call — the visitation
sequence is empty — and returns the destination unchanged, with no
error or panic (`Blit` is a total function). -/
theorem blit_out_of_range_is_noop {δ σ : Type} (dstB srcB : Box)
    (dstSet : δ → Int → Int → Int → Nat → δ) (srcGet : σ → Int → Int → Int → Nat)
    (dst : δ) (src : σ) (dp : Point) (sr : Box)
    (h : (dstB.Intersect ⟨dp, ((sr.Intersect srcB).Size).Add dp⟩).Empty = true ∨
         (sr.Intersect srcB).Empty = true) :
    Blit dstB srcB dstSet srcGet dst src dp sr = dst ∧
    blitTrace (dstB.Intersect ⟨dp, ((sr.Intersect srcB).Size).Add dp⟩)
      (sr.Intersect srcB).Min = [] := by
  have hb : (dstB.Intersect ⟨dp, ((sr.Intersect srcB).Size).Add dp⟩).Empty = true := by
    rcases h with h | h
    · exact h
    · apply intersect_empty_of_empty_right
      rw [box_empty_iff] at h ⊢
      simp only [Box.Size, Point.Add]
      omega
  have hzero : (dstB.Intersect ⟨dp, ((sr.Intersect srcB).Size).Add dp⟩).Dx.toNat = 0 ∨
      (dstB.Intersect ⟨dp, ((sr.Intersect srcB).Size).Add dp⟩).Dy.toNat = 0 ∨
      (dstB.Intersect ⟨dp, ((sr.Intersect srcB).Size).Add dp⟩).Dz.toNat = 0 := by
    rw [box_empty_iff] at hb
    simp only [Box.Dx, Box.Dy, Box.Dz]
    omega
  have ht : blitTrace (dstB.Intersect ⟨dp, ((sr.Intersect srcB).Size).Add dp⟩)
      (sr.Intersect srcB).Min = [] := by
    rw [blitTrace_eq_spec]
    apply List.eq_nil_of_length_eq_zero
    rw [blitSpecTrace_length]
    rcases hzero with h0 | h0 | h0 <;> simp [h0]
  refine ⟨?_, ht⟩
  simp only [Blit]
  rw [ht]
  rfl

/-- Witness for C5: a destination point far outside the destination
bounds. -/
theorem blit_out_of_range_is_noop_witness :
    (((Bx 0 0 0 2 2 2).Intersect
      ⟨Pt 10 10 10, (((Bx 0 0 0 2 2 2).Intersect (Bx 0 0 0 2 2 2)).Size).Add (Pt 10 10 10)⟩).Empty
        = true ∨
     ((Bx 0 0 0 2 2 2).Intersect (Bx 0 0 0 2 2 2)).Empty = true) ∧
    (Blit (Bx 0 0 0 2 2 2) (Bx 0 0 0 2 2 2) Paletted.Set Paletted.Get
        (NewPaletted [] (Bx 0 0 0 2 2 2)) (NewPaletted [] (Bx 0 0 0 2 2 2))
        (Pt 10 10 10) (Bx 0 0 0 2 2 2) = NewPaletted [] (Bx 0 0 0 2 2 2) ∧
     blitTrace ((Bx 0 0 0 2 2 2).Intersect
        ⟨Pt 10 10 10, (((Bx 0 0 0 2 2 2).Intersect (Bx 0 0 0 2 2 2)).Size).Add (Pt 10 10 10)⟩)
        ((Bx 0 0 0 2 2 2).Intersect (Bx 0 0 0 2 2 2)).Min = []) :=
  ⟨Or.inl (by decide), blit_out_of_range_is_noop (Bx 0 0 0 2 2 2) (Bx 0 0 0 2 2 2)
    Paletted.Set Paletted.Get (NewPaletted [] (Bx 0 0 0 2 2 2)) (NewPaletted [] (Bx 0 0 0 2 2 2))
    (Pt 10 10 10) (Bx 0 0 0 2 2 2) (Or.inl (by decide))⟩

/-- C9: the box built by `Bx` is canonical on every axis, whatever the
order of the supplied coordinate pairs. -/
theorem bx_canonical (x0 y0 z0 x1 y1 z1 : Int) :
    (Bx x0 y0 z0 x1 y1 z1).Min.X ≤ (Bx x0 y0 z0 x1 y1 z1).Max.X ∧
    (Bx x0 y0 z0 x1 y1 z1).Min.Y ≤ (Bx x0 y0 z0 x1 y1 z1).Max.Y ∧
    (Bx x0 y0 z0 x1 y1 z1).Min.Z ≤ (Bx x0 y0 z0 x1 y1 z1).Max.Z := by
  simp only [Bx]
  split_ifs <;> simp <;> omega

/-- Splitting a successful `readN`. -/
theorem readN_split {n : Nat} {rem a b : List Nat} (h : readN n rem = some (a, b)) :
    n ≤ rem.length ∧ a = rem.take n ∧ b = rem.drop n := by
  rw [readN] at h
  split_ifs at h with hle
  simp only [Option.some.injEq, Prod.mk.injEq] at h
  exact ⟨hle, h.1.symm, h.2.symm⟩

/-- `readVoxels` never grows the remaining stream. -/
theorem readVoxels_rem_le (n : Nat) (rem : List Nat) :
    (readVoxels n rem).2.1.length ≤ rem.length := by
  induction n generalizing rem with
  | zero => simp [readVoxels]
  | succ k ih =>
    rw [readVoxels]
    cases hr : readN 4 rem with
    | none => simp
    | some p =>
      obtain ⟨v, rem1⟩ := p
      obtain ⟨hle, -, hb⟩ := readN_split hr
      simp only
      calc (readVoxels k rem1).2.1.length ≤ rem1.length := ih rem1
        _ ≤ rem.length := by rw [hb]; simp

/-- Every event emitted by `readVoxels` is a `Set` event. -/
theorem readVoxels_events_not_palette (n : Nat) (rem : List Nat) :
    ∀ e ∈ (readVoxels n rem).1, e.isSetPalette = false := by
  induction n generalizing rem with
  | zero => simp [readVoxels]
  | succ k ih =>
    rw [readVoxels]
    cases hr : readN 4 rem with
    | none => simp
    | some p =>
      obtain ⟨v, rem1⟩ := p
      simp only
      intro e he
      rcases List.mem_cons.mp he with he | he
      · subst he; rfl
      · exact ih rem1 e he

/-- Fuel `rem.length + 1` always suffices for the child-chunk loop:
every iteration consumes at least the 12 bytes of a successfully read
child header. -/
theorem decodeChunksF_isSome (fuel : Nat) :
    ∀ (cs nb : Nat) (hp : Bool) (rem : List Nat), rem.length < fuel →
      (decodeChunksF fuel cs nb hp rem).isSome = true := by
  induction fuel with
  | zero => intro _ _ _ _ h; omega
  | succ n ih =>
    intro cs nb hp rem hlen
    rw [decodeChunksF]
    by_cases hlt : nb < cs
    · rw [if_pos hlt]
      cases h12 : readN 12 rem with
      | none => simp
      | some p =>
        obtain ⟨hdr, rem1⟩ := p
        obtain ⟨hle12, -, hrem1⟩ := readN_split h12
        have hlen1 : rem1.length = rem.length - 12 := by rw [hrem1]; simp
        simp only
        by_cases hsz : hdr.take 4 = sizeShunkID
        · rw [if_pos hsz]
          cases h12b : readN 12 rem1 with
          | none => simp
          | some q =>
            obtain ⟨szb, rem2⟩ := q
            obtain ⟨hle12b, -, hrem2⟩ := readN_split h12b
            have hlen2 : rem2.length = rem1.length - 12 := by rw [hrem2]; simp
            simp only
            obtain ⟨r, hr⟩ := Option.isSome_iff_exists.mp (ih cs _ hp rem2 (by omega))
            rw [hr]
            simp
        · rw [if_neg hsz]
          by_cases hpal : hdr.take 4 = paletteChunkID
          · rw [if_pos hpal]
            cases h1024 : readN 1024 rem1 with
            | none => simp
            | some q =>
              obtain ⟨pb, rem2⟩ := q
              obtain ⟨hle1024, -, hrem2⟩ := readN_split h1024
              have hlen2 : rem2.length = rem1.length - 1024 := by rw [hrem2]; simp
              simp only
              obtain ⟨r, hr⟩ := Option.isSome_iff_exists.mp (ih cs _ true rem2 (by omega))
              rw [hr]
              simp
          · rw [if_neg hpal]
            by_cases hvox : hdr.take 4 = voxelChunkID
            · rw [if_pos hvox]
              cases h4 : readN 4 rem1 with
              | none => simp
              | some q =>
                obtain ⟨nvb, rem2⟩ := q
                obtain ⟨hle4, -, hrem2⟩ := readN_split h4
                have hlen2 : rem2.length = rem1.length - 4 := by rw [hrem2]; simp
                simp only
                by_cases hok : (readVoxels (le32 nvb) rem2).2.2 = true
                · rw [if_pos hok]
                  have hrv := readVoxels_rem_le (le32 nvb) rem2
                  obtain ⟨r, hr⟩ :=
                    Option.isSome_iff_exists.mp
                      (ih cs _ hp (readVoxels (le32 nvb) rem2).2.1 (by omega))
                  rw [hr]
                  simp
                · rw [if_neg hok]
                  simp
            · rw [if_neg hvox]
              by_cases hemp : rem1.isEmpty = true
              · rw [if_pos hemp]
                simp
              · rw [if_neg hemp]
                obtain ⟨r, hr⟩ :=
                  Option.isSome_iff_exists.mp
                    (ih cs _ hp (rem1.drop (min ((le32 (hdr.drop 4) + le32 (hdr.drop 8)) % u32Mod) rem1.length)) (by simp; omega))
                rw [hr]
                simp
    · rw [if_neg hlt]
      simp


/-- The `hasPalette` flag is monotone across the loop, and a loop run
that ends with `hasPalette = false` has emitted no `SetPalette`
event. -/
theorem decodeChunksF_palette_invariant (fuel : Nat) :
    ∀ (cs nb : Nat) (hp : Bool) (rem : List Nat) (r : LoopOut),
      decodeChunksF fuel cs nb hp rem = some r →
      (hp = true → r.hasPalette = true) ∧
      (r.hasPalette = false → ∀ e ∈ r.events, e.isSetPalette = false) := by
  induction fuel with
  | zero =>
    intro cs nb hp rem r h
    rw [decodeChunksF] at h
    exact absurd h (by simp)
  | succ n ih =>
    intro cs nb hp rem r h
    rw [decodeChunksF] at h
    by_cases hlt : nb < cs
    · rw [if_pos hlt] at h
      cases h12 : readN 12 rem with
      | none =>
        simp only [h12, Option.some.injEq] at h
        subst h
        simp
      | some p =>
        obtain ⟨hdr, rem1⟩ := p
        simp only [h12] at h
        by_cases hsz : hdr.take 4 = sizeShunkID
        · rw [if_pos hsz] at h
          cases h12b : readN 12 rem1 with
          | none =>
            simp only [h12b, Option.some.injEq] at h
            subst h
            simp
          | some q =>
            obtain ⟨szb, rem2⟩ := q
            simp only [h12b] at h
            obtain ⟨r1, hrec, hr1⟩ := Option.map_eq_some'.mp h
            obtain ⟨hmono, hnopal⟩ := ih _ _ _ _ _ hrec
            subst hr1
            refine ⟨hmono, fun hfalse e he => ?_⟩
            rcases List.mem_cons.mp he with he | he
            · subst he; rfl
            · exact hnopal hfalse e he
        · rw [if_neg hsz] at h
          by_cases hpal : hdr.take 4 = paletteChunkID
          · rw [if_pos hpal] at h
            cases h1024 : readN 1024 rem1 with
            | none =>
              simp only [h1024, Option.some.injEq] at h
              subst h
              simp
            | some q =>
              obtain ⟨pb, rem2⟩ := q
              simp only [h1024] at h
              obtain ⟨r1, hrec, hr1⟩ := Option.map_eq_some'.mp h
              obtain ⟨hmono, -⟩ := ih _ _ _ _ _ hrec
              subst hr1
              have hp1 : r1.hasPalette = true := hmono rfl
              refine ⟨fun _ => hp1, fun hfalse => ?_⟩
              rw [hp1] at hfalse
              exact absurd hfalse (by simp)
          · rw [if_neg hpal] at h
            by_cases hvox : hdr.take 4 = voxelChunkID
            · rw [if_pos hvox] at h
              cases h4 : readN 4 rem1 with
              | none =>
                simp only [h4, Option.some.injEq] at h
                subst h
                simp
              | some q =>
                obtain ⟨nvb, rem2⟩ := q
                simp only [h4] at h
                by_cases hok : (readVoxels (le32 nvb) rem2).2.2 = true
                · rw [if_pos hok] at h
                  obtain ⟨r1, hrec, hr1⟩ := Option.map_eq_some'.mp h
                  obtain ⟨hmono, hnopal⟩ := ih _ _ _ _ _ hrec
                  subst hr1
                  refine ⟨hmono, fun hfalse e he => ?_⟩
                  rcases List.mem_append.mp he with he | he
                  · exact readVoxels_events_not_palette _ _ e he
                  · exact hnopal hfalse e he
                · rw [if_neg hok] at h
                  simp only [Option.some.injEq] at h
                  subst h
                  refine ⟨fun hh => hh, fun _ e he => ?_⟩
                  exact readVoxels_events_not_palette _ _ e he
            · rw [if_neg hvox] at h
              by_cases hemp : rem1.isEmpty = true
              · rw [if_pos hemp] at h
                simp only [Option.some.injEq] at h
                subst h
                simp
              · rw [if_neg hemp] at h
                exact ih _ _ _ _ _ h
    · rw [if_neg hlt] at h
      simp only [Option.some.injEq] at h
      subst h
      simp


/-- C10: for every finite input stream, `Decode` terminates: the
child-chunk loop completes, with a result or an error, within
`rem.length + 1` iterations — every iteration consumes at least the 12
bytes of a successfully read child header — so `Decode` never returns
the out-of-fuel marker `none`. -/
theorem decode_terminates :
    (∀ (cs nb : Nat) (hp : Bool) (rem : List Nat),
        (decodeChunksF (rem.length + 1) cs nb hp rem).isSome = true) ∧
    ∀ bytes : List Nat, (Decode bytes).isSome = true := by
  have hloop : ∀ (cs nb : Nat) (hp : Bool) (rem : List Nat),
      (decodeChunksF (rem.length + 1) cs nb hp rem).isSome = true :=
    fun cs nb hp rem => decodeChunksF_isSome (rem.length + 1) cs nb hp rem (by omega)
  refine ⟨hloop, fun bytes => ?_⟩
  rw [Decode]
  cases h8 : readN 8 bytes with
  | none => simp
  | some p =>
    obtain ⟨fh, rem0⟩ := p
    simp only
    by_cases hm : fh.take 4 ≠ voxMagic
    · rw [if_pos hm]; simp
    · rw [if_neg hm]
      by_cases hv : fh.getD 4 0 ≠ voxVersion
      · rw [if_pos hv]; simp
      · rw [if_neg hv]
        cases h12 : readN 12 rem0 with
        | none => simp
        | some q =>
          obtain ⟨mh, rem1⟩ := q
          simp only
          by_cases hmain : mh.take 4 ≠ mainChunkID
          · rw [if_pos hmain]; simp
          · rw [if_neg hmain]
            obtain ⟨r, hr⟩ :=
              Option.isSome_iff_exists.mp (hloop (le32 (mh.drop 8)) 0 false rem1)
            rw [hr]
            obtain ⟨rev, rhp, rnb, rrem, rerr⟩ := r
            cases rerr with
            | some e => simp
            | none => cases rhp <;> simp

/-- C6: a stream whose first four bytes differ from the magic `"VOX "`
(or whose 8-byte file header cannot be fully read) makes `Decode`
return the `InvalidFile` error with no sink call made (the event list
is empty). -/
theorem bad_magic_fails_before_sink (bytes : List Nat)
    (h : bytes.take 4 ≠ voxMagic ∨ bytes.length < 8) :
    ∃ rest, Decode bytes = some ⟨[], some VoxError.invalidFile, false, 0, rest⟩ := by
  by_cases hl : bytes.length < 8
  · refine ⟨bytes, ?_⟩
    rw [Decode]
    have h8 : readN 8 bytes = none := by
      rw [readN, if_neg]
      omega
    rw [h8]
  · have h4 : bytes.take 4 ≠ voxMagic := by
      rcases h with h | h
      · exact h
      · omega
    have h8 : readN 8 bytes = some (bytes.take 8, bytes.drop 8) := by
      rw [readN, if_pos (by omega)]
    refine ⟨bytes.drop 8, ?_⟩
    rw [Decode]
    simp only [h8]
    have hc : (bytes.take 8).take 4 ≠ voxMagic := by
      rw [List.take_take]
      norm_num
      exact h4
    rw [if_pos hc]

/-- Witness for C6 at the all-zero 8-byte stream. -/
theorem bad_magic_fails_before_sink_witness :
    (([0, 0, 0, 0, 0, 0, 0, 0] : List Nat).take 4 ≠ voxMagic ∨
      ([0, 0, 0, 0, 0, 0, 0, 0] : List Nat).length < 8) ∧
    ∃ rest, Decode [0, 0, 0, 0, 0, 0, 0, 0] =
      some ⟨[], some VoxError.invalidFile, false, 0, rest⟩ :=
  ⟨Or.inl (by decide),
   bad_magic_fails_before_sink [0, 0, 0, 0, 0, 0, 0, 0] (Or.inl (by decide))⟩

/-- C7: every stream that `Decode` accepts without having seen an
`RGBA` chunk (`hasPalette = false`) produces exactly one `SetPalette`
sink call, carrying the built-in 256-entry default palette, and it is
the last sink call (after the child-chunk loop, before returning
success). -/
theorem default_palette_when_no_rgba (bytes : List Nat) (out : DecodeOut)
    (h1 : Decode bytes = some out) (h2 : out.err = none) (h3 : out.hasPalette = false) :
    out.events.filter SinkEvent.isSetPalette = [SinkEvent.setPalette defaultPalette] ∧
    out.events.getLast? = some (SinkEvent.setPalette defaultPalette) := by
  rw [Decode] at h1
  cases h8 : readN 8 bytes with
  | none =>
    simp only [h8, Option.some.injEq] at h1
    subst h1
    exact absurd h2 (by simp)
  | some p =>
    obtain ⟨fh, rem0⟩ := p
    simp only [h8] at h1
    by_cases hm : fh.take 4 ≠ voxMagic
    · rw [if_pos hm] at h1
      simp only [Option.some.injEq] at h1
      subst h1
      exact absurd h2 (by simp)
    · rw [if_neg hm] at h1
      by_cases hv : fh.getD 4 0 ≠ voxVersion
      · rw [if_pos hv] at h1
        simp only [Option.some.injEq] at h1
        subst h1
        exact absurd h2 (by simp)
      · rw [if_neg hv] at h1
        cases h12 : readN 12 rem0 with
        | none =>
          simp only [h12, Option.some.injEq] at h1
          subst h1
          exact absurd h2 (by simp)
        | some q =>
          obtain ⟨mh, rem1⟩ := q
          simp only [h12] at h1
          by_cases hmain : mh.take 4 ≠ mainChunkID
          · rw [if_pos hmain] at h1
            simp only [Option.some.injEq] at h1
            subst h1
            exact absurd h2 (by simp)
          · rw [if_neg hmain] at h1
            cases hrec : decodeChunksF (rem1.length + 1) (le32 (mh.drop 8)) 0 false rem1 with
            | none =>
              rw [hrec] at h1
              exact absurd h1 (by simp)
            | some r =>
              rw [hrec] at h1
              cases herr : r.err with
              | some e =>
                simp only [herr, Option.some.injEq] at h1
                subst h1
                exact absurd h2 (by simp)
              | none =>
                simp only [herr] at h1
                by_cases hhp : r.hasPalette = true
                · rw [if_pos hhp] at h1
                  simp only [Option.some.injEq] at h1
                  subst h1
                  exact absurd h3 (by simp [hhp])
                · rw [if_neg hhp] at h1
                  simp only [Option.some.injEq] at h1
                  subst h1
                  have hfalse : r.hasPalette = false := by
                    revert hhp
                    cases r.hasPalette <;> simp
                  have hnopal :=
                    (decodeChunksF_palette_invariant _ _ _ _ _ _ hrec).2 hfalse
                  constructor
                  · rw [List.filter_append]
                    have hnil : r.events.filter SinkEvent.isSetPalette = [] := by
                      rw [List.filter_eq_nil_iff]
                      intro a ha
                      simp [hnopal a ha]
                    rw [hnil]
                    rfl
                  · exact List.getLast?_concat _


set_option maxRecDepth 100000 in
set_option maxHeartbeats 4000000 in
/-- Witness for C7 at a stream whose `MAIN` chunk has no children. -/
theorem default_palette_when_no_rgba_witness :
    Decode emptyMainStream =
      some ⟨[SinkEvent.setPalette defaultPalette], none, false, 0, []⟩ ∧
    (([SinkEvent.setPalette defaultPalette].filter SinkEvent.isSetPalette =
        [SinkEvent.setPalette defaultPalette]) ∧
      ([SinkEvent.setPalette defaultPalette] : List SinkEvent).getLast? =
        some (SinkEvent.setPalette defaultPalette)) := by
  have hd : Decode emptyMainStream =
      some ⟨[SinkEvent.setPalette defaultPalette], none, false, 0, []⟩ := by decide
  exact ⟨hd, default_palette_when_no_rgba emptyMainStream _ hd rfl rfl⟩

set_option maxRecDepth 100000 in
set_option maxHeartbeats 4000000 in
/-- C1 (code bug): on a stream whose `MAIN` chunk contains exactly one
`RGBA` chunk (`childrenSize = 12 + 1024 = 1036`), the decoder consumes
the whole stream (all 1024 payload bytes are read: `rem = []`) and
succeeds, but the running byte counter ends at `12 + 16*256 = 4108`,
not `12 + 1024 = 1036`: the `RGBA` case adds `16 * 256` to `numBytes`
after reading only `4 * 256` bytes. -/
theorem rgba_overcounts_numbytes :
    (Decode rgbaOnlyStream).map (fun o => (o.err, o.numBytes, o.rem)) =
      some (none, 4108, []) ∧ (4108 : Nat) ≠ 12 + 1024 := by
  constructor
  · decide
  · decide

set_option maxRecDepth 100000 in
set_option maxHeartbeats 4000000 in
/-- C2 (code bug): on the stream `SIZE`(2,2,2), `RGBA`(`sampleTable`),
`XYZI`((0,0,0,5),(1,1,1,9)) with `childrenSize = 1084` (the chunks'
total encoded size), `Decode` succeeds and the `Paletted` sink receives
the bounds `Bx 0 0 0 2 2 2` and the supplied table, but the `XYZI`
chunk is never read (its 24 bytes stay in `rem`) because the `RGBA`
case advances the byte counter by 4108 instead of 1036, so
`Get(0,0,0) = 0` and `Get(1,1,1) = 0` instead of 5 and 9. -/
theorem decode_drops_xyzi_after_rgba :
    (Decode sizeRgbaXyziStream).map (fun o => o.err) = some none ∧
    (Decode sizeRgbaXyziStream).map (fun o =>
        ((applyEvents (NewPaletted [] ZB) o.events).bounds,
         (applyEvents (NewPaletted [] ZB) o.events).Palette,
         (applyEvents (NewPaletted [] ZB) o.events).Get 0 0 0,
         (applyEvents (NewPaletted [] ZB) o.events).Get 1 1 1,
         o.rem.length)) =
      some (Bx 0 0 0 2 2 2, parseRGBAList 256 sampleTable, 0, 0, 24) := by
  constructor
  · decide
  · decide

/-- C3 (counterexample): with the axis-swapping transform of
`swapPaletted`, `Get(1,0,0)` returns the byte at flat offset
`Offset(1,0,0)` (namely 7), not the byte at
`Offset(T(1,0,0)) = Offset(0,1,0)` (namely 0): the transform is not
applied on reads. -/
theorem get_does_not_apply_transformer :
    swapPaletted.Get 1 0 0 ≠
      swapPaletted.Data.getD
        (swapPaletted.Offset (swapPaletted.Transformer 1 0 0).1
          (swapPaletted.Transformer 1 0 0).2.1
          (swapPaletted.Transformer 1 0 0).2.2).toNat 0 := by decide

/-- C3 (amended): `Set(x,y,z,i)` applies the stored transform to the
external coordinates before turning them into a flat offset, while
`Get(x,y,z)` turns the external coordinates into a flat offset
directly, without applying the transform. -/
theorem set_transforms_get_reads_raw (p : Paletted) (x y z : Int) (i : Nat) :
    (p.Set x y z i).Data =
      p.Data.set ((p.Transformer x y z).2.2 * p.bounds.Max.X * p.bounds.Max.Y +
        (p.Transformer x y z).2.1 * p.bounds.Max.X + (p.Transformer x y z).1).toNat i ∧
    (p.Set x y z i).bounds = p.bounds ∧
    (p.Set x y z i).Palette = p.Palette ∧
    p.Get x y z =
      p.Data.getD (z * p.bounds.Max.X * p.bounds.Max.Y + y * p.bounds.Max.X + x).toNat 0 :=
  ⟨rfl, rfl, rfl, rfl⟩


end Voxel
